import Mathlib

/-!
# GameEngineDev: the physics / scene-graph bridge of `Game.cpp`

A shallow embedding of `src/src/Game.cpp`: the `Game` object owns a physics
world (a list of collision objects) and references scene nodes of the
renderer.  The per-frame callbacks step the world and copy body poses onto
the scene nodes; `setup` builds the demo scene; the destructor releases
everything.

Modelling conventions

* Scalars (`btScalar`, `Ogre::Real`) are rationals: the code under study only
  copies and compares them, and the inertia formula is stated over exact
  arithmetic.
* Pointers are natural numbers; a nullable pointer is an `Option`.
* The physics library's `stepSimulation` is a parameter of the frame
  callbacks: nothing is assumed about what a step does to the world.
* A `btTransform` is an origin plus the quaternion that `getRotation` returns.
-/

namespace GameEngineDev

/-! ## Data model -/

/-- Scalar type standing for `btScalar` and `Ogre::Real`. -/
abbrev Scalar := ℚ

/-- Heap addresses; `new` hands them out, see `alloc`. -/
abbrev Ptr := Nat

/-- Identity of a scene node (the address stored in a body's user pointer). -/
abbrev NodeId := Nat

/-- Physics-side vector `btVector3(x, y, z)`. -/
structure btVector3 where
  x : Scalar
  y : Scalar
  z : Scalar
deriving DecidableEq

/-- Physics-side quaternion `btQuaternion(x, y, z, w)`: constructor order x, y, z, w. -/
structure btQuaternion where
  x : Scalar
  y : Scalar
  z : Scalar
  w : Scalar
deriving DecidableEq

/-- Renderer-side vector `Ogre::Vector3(x, y, z)`. -/
structure Vector3 where
  x : Scalar
  y : Scalar
  z : Scalar
deriving DecidableEq

/-- Renderer-side quaternion `Ogre::Quaternion(w, x, y, z)`: constructor order w, x, y, z. -/
structure Quaternion where
  w : Scalar
  x : Scalar
  y : Scalar
  z : Scalar
deriving DecidableEq

/-- Rigid transform `btTransform`: `getOrigin()` and `getRotation()`. -/
structure btTransform where
  origin : btVector3
  rotation : btQuaternion
deriving DecidableEq

/-- Pose of a scene node: what `setPosition` and `setOrientation` store. -/
structure SceneNode where
  position : Vector3
  orientation : Quaternion
deriving DecidableEq

/-- Motion state `btDefaultMotionState`: its address and the transform that
`getWorldTransform` hands out. -/
structure btMotionState where
  ptr : Ptr
  worldTrans : btTransform
deriving DecidableEq

/-- Box collision shape `btBoxShape`: its address and the half extents given
to the constructor. -/
structure btBoxShape where
  ptr : Ptr
  halfExtents : btVector3
deriving DecidableEq

/-- Collision object `btCollisionObject`.  `isRigidBody` says whether
`btRigidBody::upcast` succeeds; `motionState`, `mass` and `localInertia` are
only meaningful for rigid bodies.  `userPointer` is the back-reference to a
scene node (`none` is the null pointer). -/
structure btCollisionObject where
  ptr : Ptr
  isRigidBody : Bool
  motionState : Option btMotionState
  worldTransform : btTransform
  userPointer : Option NodeId
  collisionShape : Ptr
  mass : Scalar
  localInertia : btVector3
deriving DecidableEq

/-- Physics world `btDiscreteDynamicsWorld`: the collision object array and gravity. -/
structure btDiscreteDynamicsWorld where
  collisionObjects : List btCollisionObject
  gravity : btVector3
deriving DecidableEq

/-- The scene graph as seen by this program: the pose of every node. -/
abbrev NodeStore := NodeId → SceneNode

/-- State of a `Game` object.  `dynamicsWorld = none` is the null pointer set
by the constructor; `collisionShapes` is the tracked shape array, whose slots
are nullable pointers; `nodeCount` and `heapNext` are the next fresh scene
node and heap address. -/
structure Game where
  dynamicsWorld : Option btDiscreteDynamicsWorld
  collisionShapes : List (Option btBoxShape)
  nodes : NodeStore
  nodeCount : Nat
  heapNext : Ptr

/-- Frame event `Ogre::FrameEvent`. -/
structure FrameEvent where
  timeSinceLastEvent : Scalar
  timeSinceLastFrame : Scalar
deriving DecidableEq

/-- Type of the library call `stepSimulation(timeStep, maxSubSteps)`. -/
abbrev StepFn := Scalar → Nat → btDiscreteDynamicsWorld → btDiscreteDynamicsWorld

/-! ## Scene node setters -/

/-- Modelled from the spec: `SceneNode::setPosition` belongs to the renderer
and is not under src/.  "Push the position onto that node": the node's
position becomes `p`, nothing else changes. -/
def setPosition (nodes : NodeStore) (n : NodeId) (p : Vector3) : NodeStore :=
  fun m => if m = n then { nodes m with position := p } else nodes m

/-- Modelled from the spec: `SceneNode::setOrientation` belongs to the renderer
and is not under src/.  "Push the orientation onto that node": the node's
orientation becomes `q`, nothing else changes. -/
def setOrientation (nodes : NodeStore) (n : NodeId) (q : Quaternion) : NodeStore :=
  fun m => if m = n then { nodes m with orientation := q } else nodes m

/-! ## Per-frame callbacks -/

/-- Physics to renderer quaternion, as written in `frameStarted`:
`Ogre::Quaternion(orientation.getW(), getX(), getY(), getZ())`. -/
def toOgreQuaternion (orientation : btQuaternion) : Quaternion :=
  { w := orientation.w, x := orientation.x, y := orientation.y, z := orientation.z }

/-- Physics to renderer position, as written in `frameStarted`:
`Ogre::Vector3(getOrigin().getX(), getY(), getZ())`. -/
def toOgreVector3 (origin : btVector3) : Vector3 :=
  { x := origin.x, y := origin.y, z := origin.z }

/-- Body of the sync loop of `frameStarted` for one collision object.
Returns the local `trans` at the end of the iteration and the node store.
The node is written only inside the branch `body && body->getMotionState()`;
the `else` branch only assigns `trans`. -/
def syncObject (obj : btCollisionObject) (nodes : NodeStore) : btTransform × NodeStore :=
  match obj.isRigidBody, obj.motionState with
  | true, some ms =>
    let trans := ms.worldTrans
    match obj.userPointer with
    | some sceneNode =>
      let orientation := trans.rotation
      (trans, setOrientation (setPosition nodes sceneNode (toOgreVector3 trans.origin))
                sceneNode (toOgreQuaternion orientation))
    | none => (trans, nodes)
  | _, _ => (obj.worldTransform, nodes)

/-- Sync loop of `frameStarted`: `for (j = n - 1; j >= 0; j--)`.  The first
argument after the array is `j + 1`; the call for a full pass is
`syncLoop arr arr.length`. -/
def syncLoop (arr : List btCollisionObject) : Nat → NodeStore → NodeStore
  | 0, nodes => nodes
  | j + 1, nodes =>
    match arr[j]? with
    | some obj => syncLoop arr j (syncObject obj nodes).2
    | none => nodes

/-- The same loop body run in forward index order `j = 0, 1, ..., n - 1`:
`k` iterations starting at index `j`. -/
def syncLoopForward (arr : List btCollisionObject) : Nat → Nat → NodeStore → NodeStore
  | 0, _, nodes => nodes
  | k + 1, j, nodes =>
    match arr[j]? with
    | some obj => syncLoopForward arr k (j + 1) (syncObject obj nodes).2
    | none => nodes

/-- What a frame callback did: the new state, the `stepSimulation` calls it
made (time step, maximum sub-steps) and its return value. -/
structure FrameResult where
  game : Game
  stepCalls : List (Scalar × Nat)
  ret : Bool

/-- Callback `Game::frameStarted`.  (The base-class call polls input events
and touches neither the world nor the nodes.) -/
def frameStarted (stepSimulation : StepFn) (g : Game) (evt : FrameEvent) : FrameResult :=
  match g.dynamicsWorld with
  | some w =>
    let w1 := stepSimulation evt.timeSinceLastFrame 10 w
    let nodes1 := syncLoop w1.collisionObjects w1.collisionObjects.length g.nodes
    { game := { g with dynamicsWorld := some w1, nodes := nodes1 }
      stepCalls := [(evt.timeSinceLastFrame, 10)]
      ret := true }
  | none => { game := g, stepCalls := [], ret := true }

/-- Callback `Game::frameEnded`: the guarded step; its sync loop is commented out. -/
def frameEnded (stepSimulation : StepFn) (g : Game) (evt : FrameEvent) : FrameResult :=
  match g.dynamicsWorld with
  | some w =>
    let w1 := stepSimulation evt.timeSinceLastFrame 10 w
    { game := { g with dynamicsWorld := some w1 }
      stepCalls := [(evt.timeSinceLastFrame, 10)]
      ret := true }
  | none => { game := g, stepCalls := [], ret := true }

/-- One rendered frame as the render loop drives it: `frameStarted`, the
draw, then `frameEnded`.  The step calls of both callbacks are collected. -/
def renderOneFrame (stepSimulation : StepFn) (g : Game) (evtStarted evtEnded : FrameEvent) :
    FrameResult :=
  let r1 := frameStarted stepSimulation g evtStarted
  let r2 := frameEnded stepSimulation r1.game evtEnded
  { game := r2.game, stepCalls := r1.stepCalls ++ r2.stepCalls, ret := r2.ret }

/-! ## Scene construction (`Game::setup`) -/

/-- Values that `setup` obtains from the renderer and cannot compute itself:
the orientations produced by `lookAt` and `setDirection`, the quaternion
`Quaternion(rads, axis)` and the size `b.getSize()` of the cube mesh's world
bounding box. -/
structure SceneInputs where
  camLookAt : Quaternion
  spotDirection : Quaternion
  directionalDirection : Quaternion
  quat : Quaternion
  meshBoundingBox : Vector3

/-- Constant `Vector3::ZERO`. -/
def Vector3.ZERO : Vector3 := { x := 0, y := 0, z := 0 }

/-- Constant `Quaternion::IDENTITY`. -/
def Quaternion.IDENTITY : Quaternion := { w := 1, x := 0, y := 0, z := 0 }

/-- Transform after `setIdentity()`. -/
def btTransform.identity : btTransform :=
  { origin := { x := 0, y := 0, z := 0 }, rotation := { x := 0, y := 0, z := 0, w := 1 } }

/-- Constructor `Game::Game`: the world pointer is null; nothing else exists yet. -/
def newGame : Game :=
  { dynamicsWorld := none
    collisionShapes := []
    nodes := fun _ => { position := Vector3.ZERO, orientation := Quaternion.IDENTITY }
    nodeCount := 0
    heapNext := 1 }

/-- Operator `new`: hands out a fresh heap address (addresses handed out are
pairwise different and never null). -/
def alloc (g : Game) : Ptr × Game :=
  (g.heapNext, { g with heapNext := g.heapNext + 1 })

/-- Modelled from the spec: `createChildSceneNode` belongs to the renderer and
is not under src/.  It yields a fresh scene node, at the origin with identity
orientation. -/
def createChildSceneNode (g : Game) : NodeId × Game :=
  (g.nodeCount,
   { g with
     nodeCount := g.nodeCount + 1
     nodes := fun m =>
       if m = g.nodeCount then { position := Vector3.ZERO, orientation := Quaternion.IDENTITY }
       else g.nodes m })

/-- Method `Game::bulletInit`: an empty world with gravity `(0, -10, 0)`. -/
def bulletInit (g : Game) : Game :=
  { g with dynamicsWorld := some { collisionObjects := [], gravity := { x := 0, y := -10, z := 0 } } }

/-- Method `Game::setupCamera`: the camera node at `(200, 300, 400)`, looking at the origin. -/
def setupCamera (inp : SceneInputs) (g : Game) : NodeId × Game :=
  let (camNode, g1) := createChildSceneNode g
  let nodes1 := setPosition g1.nodes camNode { x := 200, y := 300, z := 400 }
  let nodes2 := setOrientation nodes1 camNode inp.camLookAt
  (camNode, { g1 with nodes := nodes2 })

/-- The static/dynamic test written in `setupFloor` and `setupBoxMesh`:
`bool isDynamic = (mass != 0.f)`. -/
def isDynamic (mass : Scalar) : Bool := mass != 0

/-- Modelled from the spec: `btBoxShape::calculateLocalInertia` belongs to the
physics library and is not under src/.  For half extents `(hx, hy, hz)` the
inertia is `mass / 12` times
`((2hy)^2 + (2hz)^2, (2hx)^2 + (2hz)^2, (2hx)^2 + (2hy)^2)`. -/
def calculateLocalInertia (shape : btBoxShape) (mass : Scalar) : btVector3 :=
  let lx := 2 * shape.halfExtents.x
  let ly := 2 * shape.halfExtents.y
  let lz := 2 * shape.halfExtents.z
  { x := mass / 12 * (ly * ly + lz * lz)
    y := mass / 12 * (lx * lx + lz * lz)
    z := mass / 12 * (lx * lx + ly * ly) }

/-- Modelled from the spec: `addRigidBody` belongs to the physics library and
is not under src/.  "Register the body in the world": the body is appended to
the collision object array. -/
def addRigidBody (w : btDiscreteDynamicsWorld) (body : btCollisionObject) :
    btDiscreteDynamicsWorld :=
  { w with collisionObjects := w.collisionObjects ++ [body] }

/-- Method `Game::setupFloor`.  Returns the ground node and the new state;
`none` is the null dereference when no world exists.  The ground body's user
pointer is never set. -/
def setupFloor (g : Game) : Option (NodeId × Game) :=
  let (thisSceneNode, g1) := createChildSceneNode g
  let (shapePtr, g2) := alloc g1
  let groundShape : btBoxShape := { ptr := shapePtr, halfExtents := { x := 750, y := 50, z := 750 } }
  let g3 := { g2 with collisionShapes := g2.collisionShapes ++ [some groundShape] }
  let groundTransform : btTransform :=
    { btTransform.identity with origin := { x := 0, y := -100, z := 0 } }
  let mass : Scalar := 0
  let localInertia : btVector3 :=
    if isDynamic mass then calculateLocalInertia groundShape mass else { x := 0, y := 0, z := 0 }
  let (msPtr, g4) := alloc g3
  let myMotionState : btMotionState := { ptr := msPtr, worldTrans := groundTransform }
  let (bodyPtr, g5) := alloc g4
  let body : btCollisionObject :=
    { ptr := bodyPtr
      isRigidBody := true
      motionState := some myMotionState
      worldTransform := groundTransform
      userPointer := none
      collisionShape := shapePtr
      mass := mass
      localInertia := localInertia }
  match g5.dynamicsWorld with
  | some w => some (thisSceneNode, { g5 with dynamicsWorld := some (addRigidBody w body) })
  | none => none

/-- Method `Game::setupLights`: three light nodes (spot, directional, point). -/
def setupLights (inp : SceneInputs) (g : Game) : (NodeId × NodeId × NodeId) × Game :=
  let (spotLightNode, g1) := createChildSceneNode g
  let n1 := setOrientation g1.nodes spotLightNode inp.spotDirection
  let n2 := setPosition n1 spotLightNode { x := 200, y := 200, z := 0 }
  let (directionalLightNode, g2) := createChildSceneNode { g1 with nodes := n2 }
  let n3 := setOrientation g2.nodes directionalLightNode inp.directionalDirection
  let (pointLightNode, g3) := createChildSceneNode { g2 with nodes := n3 }
  let n4 := setPosition g3.nodes pointLightNode { x := 0, y := 150, z := 250 }
  ((spotLightNode, directionalLightNode, pointLightNode), { g3 with nodes := n4 })

/-- Renderer to physics quaternion, as written in `setupBoxMesh`:
`btQuaternion(quat.x, quat.y, quat.z, quat.w)`. -/
def toBtQuaternion (quat : Quaternion) : btQuaternion :=
  { x := quat.x, y := quat.y, z := quat.z, w := quat.w }

/-- Method `Game::setupBoxMesh`.  Returns the box node and the new state; `none`
is the null dereference when no world exists.  The bounding box size is passed
unchanged as the half extents of the box shape. -/
def setupBoxMesh (inp : SceneInputs) (g : Game) : Option (NodeId × Game) :=
  let (thisSceneNode, g1) := createChildSceneNode g
  let n1 := setPosition g1.nodes thisSceneNode { x := 0, y := 200, z := 0 }
  let quat := inp.quat
  let n2 := setOrientation n1 thisSceneNode quat
  let meshBoundingBox := inp.meshBoundingBox
  let (shapePtr, g2) := alloc { g1 with nodes := n2 }
  let colShape : btBoxShape :=
    { ptr := shapePtr
      halfExtents := { x := meshBoundingBox.x, y := meshBoundingBox.y, z := meshBoundingBox.z } }
  let g3 := { g2 with collisionShapes := g2.collisionShapes ++ [some colShape] }
  let startTransform0 : btTransform := { btTransform.identity with rotation := toBtQuaternion quat }
  let mass : Scalar := 1
  let localInertia : btVector3 :=
    if isDynamic mass then calculateLocalInertia colShape mass else { x := 0, y := 0, z := 0 }
  let startTransform : btTransform := { startTransform0 with origin := { x := 0, y := 200, z := 0 } }
  let (msPtr, g4) := alloc g3
  let myMotionState : btMotionState := { ptr := msPtr, worldTrans := startTransform }
  let (bodyPtr, g5) := alloc g4
  let body : btCollisionObject :=
    { ptr := bodyPtr
      isRigidBody := true
      motionState := some myMotionState
      worldTransform := startTransform
      userPointer := some thisSceneNode
      collisionShape := shapePtr
      mass := mass
      localInertia := localInertia }
  match g5.dynamicsWorld with
  | some w => some (thisSceneNode, { g5 with dynamicsWorld := some (addRigidBody w body) })
  | none => none

/-- Scene nodes created by `setup`, in creation order. -/
structure SceneNodes where
  camNode : NodeId
  groundNode : NodeId
  spotLightNode : NodeId
  directionalLightNode : NodeId
  pointLightNode : NodeId
  boxNode : NodeId
deriving DecidableEq

/-- Method `Game::setup`: `bulletInit`, `setupCamera`, `setupFloor`,
`setupLights`, `setupBoxMesh`, in that order. -/
def setup (inp : SceneInputs) (g : Game) : Option (SceneNodes × Game) :=
  let g1 := bulletInit g
  let (camNode, g2) := setupCamera inp g1
  match setupFloor g2 with
  | none => none
  | some (groundNode, g3) =>
    let ((spot, directional, point), g4) := setupLights inp g3
    match setupBoxMesh inp g4 with
    | none => none
    | some (boxNode, g5) =>
      some ({ camNode := camNode, groundNode := groundNode, spotLightNode := spot,
              directionalLightNode := directional, pointLightNode := point,
              boxNode := boxNode }, g5)

/-! ## Teardown (`Game::~Game`) -/

/-- One `delete` performed by the destructor. -/
inductive Release where
  | motionState (p : Ptr)
  | collisionObject (p : Ptr)
  | collisionShape (p : Ptr)
  | dynamicsWorld
  | solver
  | overlappingPairCache
  | dispatcher
  | collisionConfiguration
deriving DecidableEq

/-- Modelled from the spec: `removeCollisionObject` belongs to the physics
library and is not under src/.  "Remove" is the library's array removal: find
the object by address, move the last element into its slot, drop the last
slot; an object that is not in the array leaves the array alone. -/
def removeCollisionObject (arr : List btCollisionObject) (obj : btCollisionObject) :
    List btCollisionObject :=
  let idx := arr.findIdx (fun o => o.ptr == obj.ptr)
  match arr.getLast? with
  | some last => if idx < arr.length then (arr.set idx last).dropLast else arr
  | none => arr

/-- The deletes of one iteration of the removal loop: the motion state when
`body && body->getMotionState()`, then the object. -/
def releaseObject (obj : btCollisionObject) : List Release :=
  match obj.isRigidBody, obj.motionState with
  | true, some ms => [Release.motionState ms.ptr, Release.collisionObject obj.ptr]
  | _, _ => [Release.collisionObject obj.ptr]

/-- Removal loop of the destructor: `for (i = n - 1; i >= 0; i--)`, with `n`
read once before the loop.  The first argument is `i + 1`.  Each iteration
reads `arr[i]` from the array as it is at that time; `none` is a read out of
bounds. -/
def removeLoop : Nat → List btCollisionObject → List Release →
    Option (List btCollisionObject × List Release)
  | 0, arr, released => some (arr, released)
  | i + 1, arr, released =>
    match arr[i]? with
    | some obj => removeLoop i (removeCollisionObject arr obj) (released ++ releaseObject obj)
    | none => none

/-- Shape loop of the destructor: `for (j = 0; j < size; j++)`; `k` iterations
are left.  Each slot is read, set to null, and the shape deleted (deleting a
null pointer does nothing). -/
def deleteShapesLoop : Nat → Nat → List (Option btBoxShape) → List Release →
    List (Option btBoxShape) × List Release
  | 0, _, shapes, released => (shapes, released)
  | k + 1, j, shapes, released =>
    match shapes[j]? with
    | some (some shape) =>
      deleteShapesLoop k (j + 1) (shapes.set j none) (released ++ [Release.collisionShape shape.ptr])
    | some none => deleteShapesLoop k (j + 1) (shapes.set j none) released
    | none => (shapes, released)

/-- Outcome of the destructor: the deletes in order, and the collision object
array at the moment the world is deleted. -/
structure Teardown where
  released : List Release
  objectsAtWorldDelete : List btCollisionObject
deriving DecidableEq

/-- Destructor `Game::~Game`.  `none` is a fault: the null world dereferenced,
or a read out of bounds in the removal loop. -/
def destroyGame (g : Game) : Option Teardown :=
  match g.dynamicsWorld with
  | none => none
  | some w =>
    match removeLoop w.collisionObjects.length w.collisionObjects [] with
    | none => none
    | some (arr, released1) =>
      let (_, released2) :=
        deleteShapesLoop g.collisionShapes.length 0 g.collisionShapes released1
      some { released := released2 ++ [Release.dynamicsWorld, Release.solver,
                           Release.overlappingPairCache, Release.dispatcher,
                           Release.collisionConfiguration]
             objectsAtWorldDelete := arr }

/-! ## Derived notions used in the statements and proofs -/

/-- The node store after one iteration of the sync loop. -/
def syncStep (obj : btCollisionObject) (nodes : NodeStore) : NodeStore :=
  (syncObject obj nodes).2

/-- The write one iteration performs, if any: the node and the pose it receives. -/
def syncWrite (obj : btCollisionObject) : Option (NodeId × SceneNode) :=
  match obj.isRigidBody, obj.motionState, obj.userPointer with
  | true, some ms, some n =>
    some (n, { position := toOgreVector3 ms.worldTrans.origin
               orientation := toOgreQuaternion ms.worldTrans.rotation })
  | _, _, _ => none

/-- Two bodies whose writes agree wherever they hit the same node. -/
def WritesAgree (a b : btCollisionObject) : Prop :=
  ∀ n ma mb, a.isRigidBody = true → b.isRigidBody = true →
    a.motionState = some ma → b.motionState = some mb →
    a.userPointer = some n → b.userPointer = some n → ma.worldTrans = mb.worldTrans

/-! ## Concrete scenes -/

/-- Inputs for a concrete run of `setup`: a cube mesh of edge 100 and a
rational unit quaternion as the box orientation. -/
def demoInputs : SceneInputs :=
  { camLookAt := { w := 1, x := 0, y := 0, z := 0 }
    spotDirection := { w := 0, x := 0, y := 0, z := 1 }
    directionalDirection := { w := 0, x := 1, y := 0, z := 0 }
    quat := { w := 4 / 5, x := 3 / 5, y := 0, z := 0 }
    meshBoundingBox := { x := 100, y := 100, z := 100 } }

/-- The state `setup` leaves behind when run on a fresh `Game` with `demoInputs`. -/
def demoGame : Game :=
  match setup demoInputs newGame with
  | some (_, g) => g
  | none => newGame

/-- The nodes `setup` creates when run on a fresh `Game`. -/
def demoNodes : SceneNodes :=
  { camNode := 0, groundNode := 1, spotLightNode := 2, directionalLightNode := 3,
    pointLightNode := 4, boxNode := 5 }

/-- The ground body of the demo scene. -/
def demoGround : btCollisionObject :=
  { ptr := 3
    isRigidBody := true
    motionState := some { ptr := 2, worldTrans := { btTransform.identity with
                                                    origin := { x := 0, y := -100, z := 0 } } }
    worldTransform := { btTransform.identity with origin := { x := 0, y := -100, z := 0 } }
    userPointer := none
    collisionShape := 1
    mass := 0
    localInertia := { x := 0, y := 0, z := 0 } }

/-- The start transform of the box body of the demo scene. -/
def demoBoxStart : btTransform :=
  { origin := { x := 0, y := 200, z := 0 }, rotation := { x := 3 / 5, y := 0, z := 0, w := 4 / 5 } }

/-- The box body of the demo scene. -/
def demoBox : btCollisionObject :=
  { ptr := 6
    isRigidBody := true
    motionState := some { ptr := 5, worldTrans := demoBoxStart }
    worldTransform := demoBoxStart
    userPointer := some 5
    collisionShape := 4
    mass := 1
    localInertia :=
      calculateLocalInertia { ptr := 4, halfExtents := { x := 100, y := 100, z := 100 } } 1 }

/-- The world of the demo scene. -/
def demoWorld : btDiscreteDynamicsWorld :=
  { collisionObjects := [demoGround, demoBox], gravity := { x := 0, y := -10, z := 0 } }

/-- A step that moves nothing (a step by zero elapsed time). -/
def stepNothing : StepFn := fun _ _ w => w

/-- A step that lowers the motion-state origin of every body of nonzero mass
by ten times the elapsed time. -/
def stepFall : StepFn := fun dt _ w =>
  { w with
    collisionObjects := w.collisionObjects.map fun o =>
      if o.mass = 0 then o
      else { o with motionState := o.motionState.map fun ms =>
               { ms with worldTrans := { ms.worldTrans with
                   origin := { ms.worldTrans.origin with y := ms.worldTrans.origin.y - 10 * dt } } } } }

/-- The box body of the demo scene after `stepFall` by one sixtieth of a second. -/
def demoBoxFallen : btCollisionObject :=
  { demoBox with
    motionState := some { ptr := 5, worldTrans := { demoBoxStart with
                            origin := { x := 0, y := 200 - 10 * (1 / 60), z := 0 } } } }

/-- The state `setup` leaves behind when run on a fresh `Game`, for any inputs. -/
def sceneAfterSetup (inp : SceneInputs) : Game :=
  match setup inp newGame with
  | some (_, g) => g
  | none => newGame

/-- A rigid body built without a motion state that references node 0; its raw
world transform is not the pose of a fresh node. -/
def bodyNoMotionState : btCollisionObject :=
  { ptr := 1
    isRigidBody := true
    motionState := none
    worldTransform := { origin := { x := 1, y := 2, z := 3 },
                        rotation := { x := 0, y := 1, z := 0, w := 0 } }
    userPointer := some 0
    collisionShape := 2
    mass := 0
    localInertia := { x := 0, y := 0, z := 0 } }

/-- A state whose world holds only `bodyNoMotionState`. -/
def gameNoMotionState : Game :=
  { newGame with
    dynamicsWorld := some { collisionObjects := [bodyNoMotionState],
                            gravity := { x := 0, y := -10, z := 0 } }
    nodeCount := 1 }

/-- A rigid body with a motion state at `(x, 0, 0)` that references node 0. -/
def bodyAt (p : Ptr) (x : Scalar) : btCollisionObject :=
  { ptr := p
    isRigidBody := true
    motionState := some { ptr := p + 100, worldTrans := { btTransform.identity with
                                                        origin := { x := x, y := 0, z := 0 } } }
    worldTransform := { btTransform.identity with origin := { x := x, y := 0, z := 0 } }
    userPointer := some 0
    collisionShape := 0
    mass := 1
    localInertia := { x := 0, y := 0, z := 0 } }

/-- Two bodies with different poses that reference the same node. -/
def aliasedBodies : List btCollisionObject := [bodyAt 1 1, bodyAt 2 2]

/-- Full edge lengths of a box shape: twice its half extents. -/
def boxDimensions (shape : btBoxShape) : btVector3 :=
  { x := 2 * shape.halfExtents.x, y := 2 * shape.halfExtents.y, z := 2 * shape.halfExtents.z }

/-- Address of the motion state the removal loop deletes for an object, if any:
the object is a rigid body and its motion state pointer is non-null. -/
def motionStatePtr (obj : btCollisionObject) : Option Ptr :=
  match obj.isRigidBody, obj.motionState with
  | true, some ms => some ms.ptr
  | _, _ => none

/-- Address held by one slot of the tracked shape array, if the slot is non-null. -/
def shapePtr (slot : Option btBoxShape) : Option Ptr :=
  slot.map fun shape => shape.ptr

/-- The delete of one slot of the tracked shape array, if the slot is non-null. -/
def releaseShape (slot : Option btBoxShape) : Option Release :=
  slot.map fun shape => Release.collisionShape shape.ptr

/-- A frame event with one sixtieth of a second elapsed. -/
def demoEvent : FrameEvent := { timeSinceLastEvent := 1 / 60, timeSinceLastFrame := 1 / 60 }

/-! ## Facts about the sync loop -/

theorem syncStep_of_write (obj : btCollisionObject) (nodes : NodeStore) (n : NodeId)
    (pose : SceneNode) (h : syncWrite obj = some (n, pose)) :
    syncStep obj nodes = fun m => if m = n then pose else nodes m := by
  unfold syncWrite at h
  unfold syncStep syncObject
  rcases obj with ⟨p, rb, ms, wt, up, cs, mass, li⟩
  cases rb <;> cases ms <;> cases up <;> simp at h
  obtain ⟨rfl, rfl⟩ := h
  funext m
  simp only [setOrientation, setPosition]
  split_ifs <;> rfl

theorem syncStep_of_no_write (obj : btCollisionObject) (nodes : NodeStore)
    (h : syncWrite obj = none) : syncStep obj nodes = nodes := by
  unfold syncWrite at h
  unfold syncStep syncObject
  rcases obj with ⟨p, rb, ms, wt, up, cs, mass, li⟩
  cases rb <;> cases ms <;> cases up <;> simp at h <;> rfl

theorem syncWrite_node (obj : btCollisionObject) (n : NodeId) (pose : SceneNode)
    (h : syncWrite obj = some (n, pose)) :
    obj.isRigidBody = true ∧ obj.userPointer = some n ∧
      ∃ ms, obj.motionState = some ms ∧
        pose = { position := toOgreVector3 ms.worldTrans.origin
                 orientation := toOgreQuaternion ms.worldTrans.rotation } := by
  unfold syncWrite at h
  rcases obj with ⟨p, rb, ms, wt, up, cs, mass, li⟩
  cases rb <;> cases ms <;> cases up <;> simp at h
  obtain ⟨rfl, rfl⟩ := h
  exact ⟨rfl, rfl, _, rfl, rfl⟩

theorem syncStep_other (obj : btCollisionObject) (nodes : NodeStore) (n : NodeId)
    (h : obj.isRigidBody = true → obj.userPointer ≠ some n) : syncStep obj nodes n = nodes n := by
  cases hw : syncWrite obj with
  | none => rw [syncStep_of_no_write obj nodes hw]
  | some np =>
    obtain ⟨m, pose⟩ := np
    rw [syncStep_of_write obj nodes m pose hw]
    obtain ⟨hrb, hup, -⟩ := syncWrite_node obj m pose hw
    have hne : n ≠ m := fun e => h hrb (e ▸ hup)
    simp [hne]

/-- The reverse-order loop is a right fold of the loop body over the array. -/
theorem syncLoop_eq_foldr (arr : List btCollisionObject) :
    ∀ (j : Nat) (nodes : NodeStore), j ≤ arr.length →
      syncLoop arr j nodes = (arr.take j).foldr syncStep nodes := by
  intro j
  induction j with
  | zero => intro nodes _; simp [syncLoop]
  | succ j ih =>
    intro nodes hj
    have hlt : j < arr.length := hj
    have hstep : syncLoop arr (j + 1) nodes = syncLoop arr j (syncStep arr[j] nodes) := by
      simp [syncLoop, List.getElem?_eq_getElem hlt, syncStep]
    have htake : arr.take (j + 1) = arr.take j ++ [arr[j]] := by
      rw [List.take_succ, List.getElem?_eq_getElem hlt]
      rfl
    rw [hstep, ih _ (Nat.le_of_lt hlt), htake, List.foldr_append]
    rfl

theorem syncLoop_full (arr : List btCollisionObject) (nodes : NodeStore) :
    syncLoop arr arr.length nodes = arr.foldr syncStep nodes := by
  rw [syncLoop_eq_foldr arr arr.length nodes (Nat.le_refl _), List.take_length]

/-- The forward-order loop is a left fold of the loop body over the array. -/
theorem syncLoopForward_eq_foldl (arr : List btCollisionObject) :
    ∀ (k j : Nat) (nodes : NodeStore), j + k ≤ arr.length →
      syncLoopForward arr k j nodes =
        ((arr.drop j).take k).foldl (fun acc o => syncStep o acc) nodes := by
  intro k
  induction k with
  | zero => intro j nodes _; simp [syncLoopForward]
  | succ k ih =>
    intro j nodes hj
    have hlt : j < arr.length := by omega
    have hstep : syncLoopForward arr (k + 1) j nodes =
        syncLoopForward arr k (j + 1) (syncStep arr[j] nodes) := by
      simp [syncLoopForward, List.getElem?_eq_getElem hlt, syncStep]
    rw [hstep, ih (j + 1) _ (by omega), List.drop_eq_getElem_cons hlt, List.take_succ_cons,
      List.foldl_cons]

theorem syncLoopForward_full (arr : List btCollisionObject) (nodes : NodeStore) :
    syncLoopForward arr arr.length 0 nodes = arr.foldl (fun acc o => syncStep o acc) nodes := by
  rw [syncLoopForward_eq_foldl arr arr.length 0 nodes (by omega)]
  simp

/-- Objects that reference a node no rigid body references leave it alone. -/
theorem foldr_syncStep_other (l : List btCollisionObject) (nodes : NodeStore) (n : NodeId)
    (h : ∀ o ∈ l, o.isRigidBody = true → o.userPointer ≠ some n) :
    l.foldr syncStep nodes n = nodes n := by
  induction l with
  | nil => rfl
  | cons a t ih =>
    rw [List.foldr_cons, syncStep_other a _ n (h a (List.mem_cons_self _ _))]
    exact ih (fun o ho => h o (List.mem_cons_of_mem _ ho))

/-- With no node shared, a synced body's node ends at the body's pose. -/
theorem foldr_syncStep_synced (l : List btCollisionObject) (nodes : NodeStore)
    (hno : l.Pairwise (fun a b => ∀ n, a.userPointer = some n → b.userPointer ≠ some n))
    (body : btCollisionObject) (hb : body ∈ l)
    (hrb : body.isRigidBody = true) (ms : btMotionState) (hms : body.motionState = some ms)
    (n : NodeId) (hn : body.userPointer = some n) :
    l.foldr syncStep nodes n =
      ⟨toOgreVector3 ms.worldTrans.origin, toOgreQuaternion ms.worldTrans.rotation⟩ := by
  induction l with
  | nil => cases hb
  | cons a t ih =>
    rw [List.pairwise_cons] at hno
    rw [List.foldr_cons]
    rcases List.mem_cons.mp hb with rfl | ht
    · have hwr : syncWrite body = some (n,
          ⟨toOgreVector3 ms.worldTrans.origin, toOgreQuaternion ms.worldTrans.rotation⟩) := by
        simp [syncWrite, hrb, hms, hn]
      rw [syncStep_of_write body _ n _ hwr]
      simp
    · have hne : a.userPointer ≠ some n := fun ha => hno.1 body ht n ha hn
      rw [syncStep_other a _ n (fun _ => hne)]
      exact ih hno.2 ht

/-- An iteration leaves alone every node it does not write. -/
theorem syncStep_untouched (obj : btCollisionObject) (nodes : NodeStore) (n : NodeId)
    (h : ∀ pose, syncWrite obj ≠ some (n, pose)) : syncStep obj nodes n = nodes n := by
  cases hw : syncWrite obj with
  | none => rw [syncStep_of_no_write obj nodes hw]
  | some np =>
    obtain ⟨m, pose⟩ := np
    rw [syncStep_of_write obj nodes m pose hw]
    have hne : n ≠ m := fun e => h pose (e ▸ hw)
    simp [hne]

theorem foldr_syncStep_untouched (l : List btCollisionObject) (nodes : NodeStore) (n : NodeId)
    (h : ∀ o ∈ l, ∀ pose, syncWrite o ≠ some (n, pose)) :
    l.foldr syncStep nodes n = nodes n := by
  induction l with
  | nil => rfl
  | cons a t ih =>
    rw [List.foldr_cons, syncStep_untouched a _ n (h a (List.mem_cons_self _ _))]
    exact ih (fun o ho => h o (List.mem_cons_of_mem _ ho))

theorem syncStep_comm (a b : btCollisionObject) (nodes : NodeStore) (h : WritesAgree a b) :
    syncStep a (syncStep b nodes) = syncStep b (syncStep a nodes) := by
  cases ha : syncWrite a with
  | none => rw [syncStep_of_no_write a _ ha, syncStep_of_no_write a _ ha]
  | some npa =>
    cases hb : syncWrite b with
    | none => rw [syncStep_of_no_write b _ hb, syncStep_of_no_write b _ hb]
    | some npb =>
      obtain ⟨n, pa⟩ := npa
      obtain ⟨m, pb⟩ := npb
      rw [syncStep_of_write a _ n pa ha, syncStep_of_write b _ m pb hb,
        syncStep_of_write a _ n pa ha, syncStep_of_write b _ m pb hb]
      obtain ⟨hra, hua, ma, hma, rfl⟩ := syncWrite_node a n _ ha
      obtain ⟨hrb, hub, mb, hmb, rfl⟩ := syncWrite_node b m _ hb
      funext k
      by_cases hnm : n = m
      · subst hnm
        rw [h n ma mb hra hrb hma hmb hua hub]
      · by_cases hkn : k = n
        · subst hkn
          simp [hnm]
        · simp [hkn]

theorem foldl_syncStep_comm (a : btCollisionObject) (l : List btCollisionObject)
    (h : ∀ b ∈ l, WritesAgree a b) (nodes : NodeStore) :
    l.foldl (fun acc o => syncStep o acc) (syncStep a nodes) =
      syncStep a (l.foldl (fun acc o => syncStep o acc) nodes) := by
  induction l generalizing nodes with
  | nil => rfl
  | cons b t ih =>
    rw [List.foldl_cons, List.foldl_cons,
      ← syncStep_comm a b nodes (h b (List.mem_cons_self _ _))]
    exact ih (fun c hc => h c (List.mem_cons_of_mem _ hc)) _

theorem foldr_eq_foldl_syncStep (l : List btCollisionObject) (nodes : NodeStore)
    (h : l.Pairwise WritesAgree) :
    l.foldr syncStep nodes = l.foldl (fun acc o => syncStep o acc) nodes := by
  induction l with
  | nil => rfl
  | cons a t ih =>
    rw [List.pairwise_cons] at h
    rw [List.foldr_cons, List.foldl_cons, ih h.2, foldl_syncStep_comm a t h.1]

/-! ## The demo scene -/

theorem setup_demo : setup demoInputs newGame = some (demoNodes, demoGame) := by
  rfl

theorem demoGame_world : demoGame.dynamicsWorld = some demoWorld := by
  rfl

/-! ## Claims about `frameStarted` -/

/-- C1. Visual sync: when the world is non-null and, after the step, no two
bodies reference the same scene node, every rigid body of the world that has a
motion state and a non-null back-reference has its node at exactly the origin
and rotation of its motion-state transform when `frameStarted` returns. -/
theorem frameStarted_visual_sync (stepSimulation : StepFn) (g : Game) (evt : FrameEvent)
    (w w1 : btDiscreteDynamicsWorld) (hw : g.dynamicsWorld = some w)
    (hstep : stepSimulation evt.timeSinceLastFrame 10 w = w1)
    (hno : w1.collisionObjects.Pairwise
      (fun a b => ∀ n, a.userPointer = some n → b.userPointer ≠ some n))
    (body : btCollisionObject) (hb : body ∈ w1.collisionObjects)
    (hrb : body.isRigidBody = true) (ms : btMotionState) (hms : body.motionState = some ms)
    (n : NodeId) (hn : body.userPointer = some n) :
    ((frameStarted stepSimulation g evt).game.nodes n).position =
        { x := ms.worldTrans.origin.x, y := ms.worldTrans.origin.y, z := ms.worldTrans.origin.z } ∧
      ((frameStarted stepSimulation g evt).game.nodes n).orientation =
        { w := ms.worldTrans.rotation.w, x := ms.worldTrans.rotation.x,
          y := ms.worldTrans.rotation.y, z := ms.worldTrans.rotation.z } := by
  have hnodes : (frameStarted stepSimulation g evt).game.nodes =
      w1.collisionObjects.foldr syncStep g.nodes := by
    simp only [frameStarted, hw, hstep]
    exact syncLoop_full _ _
  rw [hnodes, foldr_syncStep_synced _ _ hno body hb hrb ms hms n hn]
  exact ⟨rfl, rfl⟩

/-- Witness for C1: the demo scene, one falling step of a sixtieth of a second. -/
theorem frameStarted_visual_sync_witness :
    ((frameStarted stepFall demoGame demoEvent).game.nodes 5).position =
        { x := 0, y := 200 - 10 * (1 / 60), z := 0 } ∧
      ((frameStarted stepFall demoGame demoEvent).game.nodes 5).orientation =
        { w := 4 / 5, x := 3 / 5, y := 0, z := 0 } :=
  frameStarted_visual_sync stepFall demoGame demoEvent demoWorld
    (stepFall (1 / 60) 10 demoWorld) demoGame_world rfl (by decide)
    demoBoxFallen (List.mem_cons_of_mem _ (List.mem_cons_self _ _)) rfl
    { ptr := 5, worldTrans := { demoBoxStart with
        origin := { x := 0, y := 200 - 10 * (1 / 60), z := 0 } } } rfl 5 rfl

/-- C4. World-pointer guard: `frameStarted` always returns true; it calls
`stepSimulation` if and only if the world pointer is non-null, and then
exactly once with the event's elapsed time and 10 sub-steps; with a null world
it makes no call and leaves the world pointer and every node as they were. -/
theorem frameStarted_world_guard (stepSimulation : StepFn) (g : Game) (evt : FrameEvent) :
    (frameStarted stepSimulation g evt).ret = true ∧
      ((frameStarted stepSimulation g evt).stepCalls ≠ [] ↔ g.dynamicsWorld ≠ none) ∧
      (∀ w, g.dynamicsWorld = some w →
        (frameStarted stepSimulation g evt).stepCalls = [(evt.timeSinceLastFrame, 10)] ∧
        (frameStarted stepSimulation g evt).game.dynamicsWorld =
          some (stepSimulation evt.timeSinceLastFrame 10 w)) ∧
      (g.dynamicsWorld = none →
        (frameStarted stepSimulation g evt).stepCalls = [] ∧
        (frameStarted stepSimulation g evt).game.dynamicsWorld = none ∧
        ∀ n, (frameStarted stepSimulation g evt).game.nodes n = g.nodes n) := by
  cases hw : g.dynamicsWorld with
  | none => simp [frameStarted, hw]
  | some w => simp [frameStarted, hw]

/-- Witness for C4: a fresh `Game` (null world) makes no step and keeps node 0,
the demo scene makes the step `(1/60, 10)`. -/
theorem frameStarted_world_guard_witness :
    ((frameStarted stepFall newGame demoEvent).stepCalls = [] ∧
        (frameStarted stepFall newGame demoEvent).game.dynamicsWorld = none ∧
        ∀ n, (frameStarted stepFall newGame demoEvent).game.nodes n = newGame.nodes n) ∧
      (frameStarted stepFall demoGame demoEvent).stepCalls = [(1 / 60, 10)] :=
  ⟨(frameStarted_world_guard stepFall newGame demoEvent).2.2.2 rfl,
   ((frameStarted_world_guard stepFall demoGame demoEvent).2.2.1 demoWorld demoGame_world).1⟩

/-- C7. Frame condition: a node whose position or orientation `frameStarted`
changes is referenced by some rigid body of the stepped world; with a null
world no node changes; the world `frameStarted` leaves is the one the step
returned (the sync loop alters neither the object array nor any transform);
and in the scene built by `setup` the camera, ground and light nodes keep
their pose under any step that keeps the bodies' back-references. -/
theorem frameStarted_frame_condition (stepSimulation : StepFn) (g : Game) (evt : FrameEvent) :
    (∀ w, g.dynamicsWorld = some w → ∀ n,
        (frameStarted stepSimulation g evt).game.nodes n ≠ g.nodes n →
        ∃ body ∈ (stepSimulation evt.timeSinceLastFrame 10 w).collisionObjects,
          body.isRigidBody = true ∧ body.userPointer = some n) ∧
      (g.dynamicsWorld = none → (frameStarted stepSimulation g evt).game.nodes = g.nodes) ∧
      (frameStarted stepSimulation g evt).game.dynamicsWorld =
        g.dynamicsWorld.map (stepSimulation evt.timeSinceLastFrame 10) ∧
      (∀ inp nodes g0 w, setup inp newGame = some (nodes, g0) → g0.dynamicsWorld = some w →
        (stepSimulation evt.timeSinceLastFrame 10 w).collisionObjects.map (fun o => o.userPointer) =
          w.collisionObjects.map (fun o => o.userPointer) →
        ∀ n ∈ [nodes.camNode, nodes.groundNode, nodes.spotLightNode,
               nodes.directionalLightNode, nodes.pointLightNode],
          (frameStarted stepSimulation g0 evt).game.nodes n = g0.nodes n) := by
  refine ⟨?_, ?_, ?_, ?_⟩
  · intro w hw n hne
    by_contra hnone
    apply hne
    have hnodes : (frameStarted stepSimulation g evt).game.nodes =
        (stepSimulation evt.timeSinceLastFrame 10 w).collisionObjects.foldr syncStep g.nodes := by
      simp only [frameStarted, hw]
      exact syncLoop_full _ _
    rw [hnodes]
    apply foldr_syncStep_other
    intro o ho hrb hup
    exact hnone ⟨o, ho, hrb, hup⟩
  · intro hw
    simp [frameStarted, hw]
  · cases hw : g.dynamicsWorld <;> simp [frameStarted, hw]
  · intro inp nodes g0 w hs hw hkeep n hn
    have hsetup : setup inp newGame = some (demoNodes, sceneAfterSetup inp) := rfl
    rw [hsetup] at hs
    simp only [Option.some.injEq, Prod.mk.injEq] at hs
    obtain ⟨rfl, rfl⟩ := hs
    have hptrs : w.collisionObjects.map (fun o => o.userPointer) = [none, some 5] := by
      have hw5 : ∃ ground box, (sceneAfterSetup inp).dynamicsWorld =
          some { collisionObjects := [ground, box], gravity := { x := 0, y := -10, z := 0 } } ∧
          ground.userPointer = none ∧ box.userPointer = some 5 := ⟨_, _, rfl, rfl, rfl⟩
      obtain ⟨ground, box, hw5, hg, hb⟩ := hw5
      rw [hw5] at hw
      simp only [Option.some.injEq] at hw
      subst hw
      simp [hg, hb]
    have hnodes : (frameStarted stepSimulation (sceneAfterSetup inp) evt).game.nodes =
        (stepSimulation evt.timeSinceLastFrame 10 w).collisionObjects.foldr syncStep
          (sceneAfterSetup inp).nodes := by
      simp only [frameStarted, hw]
      exact syncLoop_full _ _
    rw [hnodes]
    apply foldr_syncStep_other
    intro o ho _ hup
    have hmem : o.userPointer ∈
        (stepSimulation evt.timeSinceLastFrame 10 w).collisionObjects.map (fun o => o.userPointer) :=
      List.mem_map_of_mem _ ho
    rw [hkeep, hptrs, hup] at hmem
    simp [demoNodes] at hn
    simp at hmem
    subst hmem
    simp at hn

/-- Witness for C7: in the demo scene, after a falling step, the ground node
(node 1) keeps its pose. -/
theorem frameStarted_frame_condition_witness :
    (frameStarted stepFall demoGame demoEvent).game.nodes 1 = demoGame.nodes 1 :=
  (frameStarted_frame_condition stepFall demoGame demoEvent).2.2.2 demoInputs demoNodes demoGame
    demoWorld setup_demo demoGame_world rfl 1 (by decide)

/-- C5 as stated fails: a rigid body without a motion state references node 0
and has raw world transform origin `(1, 2, 3)`; the loop reads that transform,
yet after `frameStarted` node 0 still has the pose of a fresh node. -/
theorem frameStarted_raw_fallback_counterexample :
    gameNoMotionState.dynamicsWorld =
        some { collisionObjects := [bodyNoMotionState], gravity := { x := 0, y := -10, z := 0 } } ∧
      bodyNoMotionState.motionState = none ∧ bodyNoMotionState.userPointer = some 0 ∧
      (syncObject bodyNoMotionState gameNoMotionState.nodes).1 = bodyNoMotionState.worldTransform ∧
      ((frameStarted stepNothing gameNoMotionState demoEvent).game.nodes 0).position =
        { x := 0, y := 0, z := 0 } ∧
      ((frameStarted stepNothing gameNoMotionState demoEvent).game.nodes 0).position ≠
        toOgreVector3 bodyNoMotionState.worldTransform.origin ∧
      ((frameStarted stepNothing gameNoMotionState demoEvent).game.nodes 0).orientation ≠
        toOgreQuaternion bodyNoMotionState.worldTransform.rotation := by
  refine ⟨rfl, rfl, rfl, rfl, rfl, ?_, ?_⟩ <;> decide

/-- C5, amended. For a collision object that is not a rigid body with a motion
state, the loop's transform is the object's raw world transform and the
iteration writes no node; hence a node that only such objects reference has
the same pose after `frameStarted` as before. -/
theorem frameStarted_raw_fallback (stepSimulation : StepFn) (g : Game) (evt : FrameEvent) :
    (∀ obj nodes, ¬(obj.isRigidBody = true ∧ obj.motionState.isSome = true) →
        (syncObject obj nodes).1 = obj.worldTransform ∧ (syncObject obj nodes).2 = nodes) ∧
      (∀ w, g.dynamicsWorld = some w → ∀ n,
        (∀ o ∈ (stepSimulation evt.timeSinceLastFrame 10 w).collisionObjects,
          o.userPointer = some n → ¬(o.isRigidBody = true ∧ o.motionState.isSome = true)) →
        (frameStarted stepSimulation g evt).game.nodes n = g.nodes n) := by
  constructor
  · intro obj nodes h
    rcases obj with ⟨p, rb, ms, wt, up, cs, mass, li⟩
    cases rb <;> cases ms <;> simp [syncObject] at h ⊢
  · intro w hw n h
    have hnodes : (frameStarted stepSimulation g evt).game.nodes =
        (stepSimulation evt.timeSinceLastFrame 10 w).collisionObjects.foldr syncStep g.nodes := by
      simp only [frameStarted, hw]
      exact syncLoop_full _ _
    rw [hnodes]
    apply foldr_syncStep_untouched
    intro o ho pose hwr
    obtain ⟨hrb, hup, ms, hms, -⟩ := syncWrite_node o n pose hwr
    exact h o ho hup ⟨hrb, by simp [hms]⟩

/-- Witness for C5, amended: node 0 of `gameNoMotionState` keeps its pose. -/
theorem frameStarted_raw_fallback_witness :
    (frameStarted stepNothing gameNoMotionState demoEvent).game.nodes 0 =
      gameNoMotionState.nodes 0 :=
  (frameStarted_raw_fallback stepNothing gameNoMotionState demoEvent).2 _ rfl 0 (by decide)

/-- C6 as stated fails: two bodies that reference node 0 with origins
`(1, 0, 0)` and `(2, 0, 0)`; the reverse-order loop ends with the first body's
pose on the node, the forward-order loop with the second body's. -/
theorem syncLoop_order_counterexample :
    (syncLoop aliasedBodies aliasedBodies.length newGame.nodes 0).position = { x := 1, y := 0, z := 0 } ∧
      (syncLoopForward aliasedBodies aliasedBodies.length 0 newGame.nodes 0).position =
        { x := 2, y := 0, z := 0 } ∧
      syncLoop aliasedBodies aliasedBodies.length newGame.nodes 0 ≠
        syncLoopForward aliasedBodies aliasedBodies.length 0 newGame.nodes 0 := by
  refine ⟨rfl, rfl, ?_⟩
  decide

/-- C6, amended. When any two rigid bodies with motion states that reference
the same node have equal motion-state transforms (in particular when no two
bodies reference the same node), the sync loop run in reverse index order and
in forward index order leave the same pose on every node. -/
theorem syncLoop_order_independent (arr : List btCollisionObject) (nodes : NodeStore)
    (h : arr.Pairwise (fun a b => ∀ n ma mb, a.isRigidBody = true → b.isRigidBody = true →
      a.motionState = some ma → b.motionState = some mb →
      a.userPointer = some n → b.userPointer = some n → ma.worldTrans = mb.worldTrans)) :
    syncLoop arr arr.length nodes = syncLoopForward arr arr.length 0 nodes := by
  rw [syncLoop_full, syncLoopForward_full]
  exact foldr_eq_foldl_syncStep arr nodes h

/-- Witness for C6, amended: the demo world, whose two bodies share no node. -/
theorem syncLoop_order_independent_witness :
    syncLoop demoWorld.collisionObjects demoWorld.collisionObjects.length demoGame.nodes =
      syncLoopForward demoWorld.collisionObjects demoWorld.collisionObjects.length 0
        demoGame.nodes :=
  syncLoop_order_independent demoWorld.collisionObjects demoGame.nodes (by
    simp [demoWorld, demoGround, demoBox])

/-- The number of `stepSimulation` calls of one rendered frame: two with a
world, none without. -/
theorem renderOneFrame_stepCalls_length (stepSimulation : StepFn) (g : Game)
    (evtStarted evtEnded : FrameEvent) :
    (renderOneFrame stepSimulation g evtStarted evtEnded).stepCalls.length =
      if g.dynamicsWorld.isSome then 2 else 0 := by
  cases hw : g.dynamicsWorld <;> simp [renderOneFrame, frameStarted, frameEnded, hw]

/-- C2 fails on the code: in the demo scene one rendered frame (`frameStarted`
then `frameEnded`, a sixtieth of a second each) calls `stepSimulation` twice,
not once. -/
theorem renderOneFrame_steps_twice :
    (renderOneFrame stepFall demoGame demoEvent demoEvent).stepCalls =
        [(1 / 60, 10), (1 / 60, 10)] ∧
      (renderOneFrame stepFall demoGame demoEvent demoEvent).stepCalls.length = 2 := by
  exact ⟨rfl, rfl⟩

/-! ## Claims about `setup` -/

/-- The scene `setup` builds from a fresh `Game`: six nodes, two tracked
shapes and two bodies, as a function of the inputs. -/
theorem setup_scene (inp : SceneInputs) :
    ∃ g ground box groundShape boxShape,
      setup inp newGame = some (demoNodes, g) ∧
      g.dynamicsWorld =
        some { collisionObjects := [ground, box], gravity := { x := 0, y := -10, z := 0 } } ∧
      g.collisionShapes = [some groundShape, some boxShape] ∧
      groundShape = { ptr := 1, halfExtents := { x := 750, y := 50, z := 750 } } ∧
      boxShape = { ptr := 4, halfExtents := { x := inp.meshBoundingBox.x,
                                              y := inp.meshBoundingBox.y,
                                              z := inp.meshBoundingBox.z } } ∧
      ground = { ptr := 3, isRigidBody := true,
                 motionState := some { ptr := 2, worldTrans :=
                   { origin := { x := 0, y := -100, z := 0 },
                     rotation := { x := 0, y := 0, z := 0, w := 1 } } },
                 worldTransform := { origin := { x := 0, y := -100, z := 0 },
                                     rotation := { x := 0, y := 0, z := 0, w := 1 } },
                 userPointer := none, collisionShape := 1, mass := 0,
                 localInertia := { x := 0, y := 0, z := 0 } } ∧
      box = { ptr := 6, isRigidBody := true,
              motionState := some { ptr := 5, worldTrans :=
                { origin := { x := 0, y := 200, z := 0 }, rotation := toBtQuaternion inp.quat } },
              worldTransform :=
                { origin := { x := 0, y := 200, z := 0 }, rotation := toBtQuaternion inp.quat },
              userPointer := some 5, collisionShape := 4, mass := 1,
              localInertia := calculateLocalInertia boxShape 1 } ∧
      g.nodes 5 = { position := { x := 0, y := 200, z := 0 }, orientation := inp.quat } :=
  ⟨sceneAfterSetup inp, _, _, _, _, rfl, rfl, rfl, rfl, rfl, rfl, rfl, rfl⟩

/-- C10. Initial pose consistency: the quaternion reordering of `setupBoxMesh`
and that of `frameStarted` are mutually inverse; in the scene `setup` builds,
the box body references the box node, its motion state starts at origin
`(0, 200, 0)` with the reordered node orientation, and running the sync body on
it writes back exactly the position and orientation the node was given. -/
theorem initial_pose_consistency (inp : SceneInputs) :
    (∀ q, toOgreQuaternion (toBtQuaternion q) = q) ∧
      (∀ o, toBtQuaternion (toOgreQuaternion o) = o) ∧
      ∃ nodes g ground box ms,
        setup inp newGame = some (nodes, g) ∧
        g.dynamicsWorld =
          some { collisionObjects := [ground, box], gravity := { x := 0, y := -10, z := 0 } } ∧
        box.isRigidBody = true ∧ box.userPointer = some nodes.boxNode ∧
        box.motionState = some ms ∧
        ms.worldTrans.origin = { x := 0, y := 200, z := 0 } ∧
        ms.worldTrans.rotation = toBtQuaternion inp.quat ∧
        g.nodes nodes.boxNode =
          { position := { x := 0, y := 200, z := 0 }, orientation := inp.quat } ∧
        (syncObject box g.nodes).1 = ms.worldTrans ∧
        (syncObject box g.nodes).2 nodes.boxNode = g.nodes nodes.boxNode ∧
        (syncObject box g.nodes).2 = g.nodes := by
  refine ⟨fun q => rfl, fun o => rfl, ?_⟩
  obtain ⟨g, ground, box, groundShape, boxShape, hs, hw, -, -, -, -, hbox, hnode⟩ := setup_scene inp
  refine ⟨demoNodes, g, ground, box,
    { ptr := 5, worldTrans :=
        { origin := { x := 0, y := 200, z := 0 }, rotation := toBtQuaternion inp.quat } },
    hs, hw, ?_, ?_, ?_, rfl, rfl, hnode, ?_, ?_, ?_⟩
  · rw [hbox]
  · rw [hbox]; rfl
  · rw [hbox]
  · rw [hbox]; rfl
  · rw [hbox]
    simp [syncObject, setOrientation, setPosition, demoNodes, toOgreVector3, toOgreQuaternion,
      toBtQuaternion, hnode]
  · rw [hbox]
    funext m
    by_cases hm : m = 5
    · subst hm
      simp [syncObject, setOrientation, setPosition, toOgreVector3, toOgreQuaternion,
        toBtQuaternion, hnode]
    · simp [syncObject, setOrientation, setPosition, hm]

/-- The box inertia vanishes only for a box of zero size. -/
theorem calculateLocalInertia_ne_zero (shape : btBoxShape)
    (h : shape.halfExtents ≠ { x := 0, y := 0, z := 0 }) :
    calculateLocalInertia shape 1 ≠ { x := 0, y := 0, z := 0 } := by
  intro h0
  apply h
  rcases shape with ⟨p, ⟨hx, hy, hz⟩⟩
  simp only [calculateLocalInertia, btVector3.mk.injEq] at h0
  obtain ⟨h1, h2, -⟩ := h0
  have hxx := mul_self_nonneg hx
  have hyy := mul_self_nonneg hy
  have hzz := mul_self_nonneg hz
  have ey : hy * hy = 0 := by nlinarith
  have ez : hz * hz = 0 := by nlinarith
  have ex : hx * hx = 0 := by nlinarith
  simp only [btVector3.mk.injEq]
  exact ⟨mul_self_eq_zero.mp ex, mul_self_eq_zero.mp ey, mul_self_eq_zero.mp ez⟩

/-- C8. Static/dynamic rule: a body is dynamic exactly when its mass is
nonzero; in the scene `setup` builds, the ground body has mass 0 and local
inertia `(0, 0, 0)`, the box body has mass 1 and the local inertia of its box
shape, `mass / 12` times `((2hy)^2 + (2hz)^2, (2hx)^2 + (2hz)^2, (2hx)^2 + (2hy)^2)`
for the half extents the shape was built with, and that vector is nonzero
whenever the mesh bounding box size is not `Vector3::ZERO`. -/
theorem static_dynamic_rule (inp : SceneInputs) :
    (∀ mass, isDynamic mass = true ↔ mass ≠ 0) ∧
      (∀ shape mass, calculateLocalInertia shape mass =
        { x := mass / 12 * ((2 * shape.halfExtents.y) ^ 2 + (2 * shape.halfExtents.z) ^ 2)
          y := mass / 12 * ((2 * shape.halfExtents.x) ^ 2 + (2 * shape.halfExtents.z) ^ 2)
          z := mass / 12 * ((2 * shape.halfExtents.x) ^ 2 + (2 * shape.halfExtents.y) ^ 2) }) ∧
      ∃ nodes g ground box boxShape,
        setup inp newGame = some (nodes, g) ∧
        g.dynamicsWorld =
          some { collisionObjects := [ground, box], gravity := { x := 0, y := -10, z := 0 } } ∧
        some boxShape ∈ g.collisionShapes ∧ box.collisionShape = boxShape.ptr ∧
        ground.mass = 0 ∧ isDynamic ground.mass = false ∧
        ground.localInertia = { x := 0, y := 0, z := 0 } ∧
        box.mass = 1 ∧ isDynamic box.mass = true ∧
        box.localInertia = calculateLocalInertia boxShape box.mass ∧
        (inp.meshBoundingBox ≠ Vector3.ZERO → box.localInertia ≠ { x := 0, y := 0, z := 0 }) := by
  refine ⟨?_, ?_, ?_⟩
  · intro mass
    simp [isDynamic]
  · intro shape mass
    simp only [calculateLocalInertia, btVector3.mk.injEq]
    refine ⟨?_, ?_, ?_⟩ <;> ring
  · obtain ⟨g, ground, box, groundShape, boxShape, hs, hw, hsh, -, hbs, hground, hbox, -⟩ :=
      setup_scene inp
    refine ⟨demoNodes, g, ground, box, boxShape, hs, hw, ?_, ?_, ?_, ?_, ?_, ?_, ?_, ?_, ?_⟩
    · simp [hsh]
    · rw [hbox, hbs]
    · rw [hground]
    · rw [hground]; simp [isDynamic]
    · rw [hground]
    · rw [hbox]
    · rw [hbox]; simp [isDynamic]
    · rw [hbox]
    · intro hne
      rw [hbox]
      apply calculateLocalInertia_ne_zero
      rw [hbs]
      intro h0
      apply hne
      simp only [btVector3.mk.injEq] at h0
      rcases hmb : inp.meshBoundingBox with ⟨sx, sy, sz⟩
      rw [hmb] at h0
      simp only [Vector3.ZERO, Vector3.mk.injEq]
      exact h0

/-- Witness for C8: the demo scene's mesh box of edge 100 is not of zero size,
and the box body's inertia there is `20000/3` on each axis. -/
theorem static_dynamic_rule_witness :
    demoInputs.meshBoundingBox ≠ Vector3.ZERO ∧
      demoBox.localInertia = { x := 20000 / 3, y := 20000 / 3, z := 20000 / 3 } ∧
      (∀ mass, isDynamic mass = true ↔ mass ≠ 0) :=
  ⟨by decide, by norm_num [demoBox, calculateLocalInertia],
    (static_dynamic_rule demoInputs).1⟩

/-- C9 fails on the code: for the demo mesh of size `(100, 100, 100)` the box
shape tracked for the falling box has half extents `(100, 100, 100)`, so its
full edge lengths are `(200, 200, 200)`, twice the mesh bounding box. -/
theorem setupBoxMesh_box_twice_mesh :
    demoInputs.meshBoundingBox = { x := 100, y := 100, z := 100 } ∧
      demoGame.collisionShapes =
        [some { ptr := 1, halfExtents := { x := 750, y := 50, z := 750 } },
         some { ptr := 4, halfExtents := { x := 100, y := 100, z := 100 } }] ∧
      demoBox.collisionShape = 4 ∧
      boxDimensions { ptr := 4, halfExtents := { x := 100, y := 100, z := 100 } } =
        { x := 200, y := 200, z := 200 } ∧
      boxDimensions { ptr := 4, halfExtents := { x := 100, y := 100, z := 100 } } ≠
        { x := 100, y := 100, z := 100 } := by
  refine ⟨rfl, rfl, rfl, by norm_num [boxDimensions], by norm_num [boxDimensions]⟩

/-! ## Claims about the destructor -/

theorem removeCollisionObject_last (front : List btCollisionObject) (obj : btCollisionObject)
    (h : ∀ x ∈ front, x.ptr ≠ obj.ptr) : removeCollisionObject (front ++ [obj]) obj = front := by
  have hfalse : ∀ x ∈ front, (fun o : btCollisionObject => o.ptr == obj.ptr) x = false := by
    intro x hx
    simpa using h x hx
  have hidx : (front ++ [obj]).findIdx (fun o => o.ptr == obj.ptr) = front.length := by
    rw [List.findIdx_append, List.findIdx_eq_length_of_false hfalse]
    simp [List.findIdx_cons]
  unfold removeCollisionObject
  simp only [hidx, List.getLast?_concat]
  simp

theorem removeLoop_spec :
    ∀ (n : Nat) (arr : List btCollisionObject) (released : List Release),
      arr.length = n → (arr.map (fun o => o.ptr)).Nodup →
      removeLoop n arr released = some ([], released ++ arr.reverse.flatMap releaseObject) := by
  intro n
  induction n with
  | zero =>
    intro arr released hlen _
    have : arr = [] := List.length_eq_zero.mp hlen
    subst this
    simp [removeLoop]
  | succ n ih =>
    intro arr released hlen hnd
    rcases List.eq_nil_or_concat arr with rfl | ⟨front, obj, rfl⟩
    · simp at hlen
    · rw [List.concat_eq_append] at hlen hnd ⊢
      have hfl : front.length = n := by simpa using hlen
      rw [List.map_append, List.nodup_append] at hnd
      obtain ⟨hfront, -, hdisj⟩ := hnd
      have hne : ∀ x ∈ front, x.ptr ≠ obj.ptr := by
        intro x hx e
        exact hdisj (List.mem_map_of_mem _ hx) (by simp [e])
      have hread : (front ++ [obj])[n]? = some obj := by
        rw [← hfl]
        exact List.getElem?_concat_length front obj
      rw [removeLoop, hread]
      simp only
      rw [removeCollisionObject_last front obj hne, ih front _ hfl hfront]
      simp [List.reverse_concat, List.flatMap_cons]

theorem deleteShapesLoop_spec :
    ∀ (k j : Nat) (shapes : List (Option btBoxShape)) (released : List Release),
      j + k = shapes.length →
      (deleteShapesLoop k j shapes released).2 =
        released ++ (shapes.drop j).filterMap releaseShape := by
  intro k
  induction k with
  | zero =>
    intro j shapes released hj
    have : shapes.drop j = [] := List.drop_eq_nil_of_le (by omega)
    simp [deleteShapesLoop, this]
  | succ k ih =>
    intro j shapes released hj
    have hlt : j < shapes.length := by omega
    have hdrop : shapes.drop j = shapes[j] :: shapes.drop (j + 1) := List.drop_eq_getElem_cons hlt
    have hset : (shapes.set j none).drop (j + 1) = shapes.drop (j + 1) :=
      List.drop_set_of_lt none shapes (Nat.lt_succ_self j)
    rw [deleteShapesLoop, List.getElem?_eq_getElem hlt, hdrop]
    cases hs : shapes[j] with
    | none =>
      simp only
      rw [ih (j + 1) _ _ (by simp; omega), hset]
      simp [releaseShape]
    | some shape =>
      simp only
      rw [ih (j + 1) _ _ (by simp; omega), hset]
      simp [releaseShape]

theorem mem_releaseObject (obj : btCollisionObject) (r : Release) :
    r ∈ releaseObject obj ↔
      r = Release.collisionObject obj.ptr ∨ ∃ p, motionStatePtr obj = some p ∧ r = Release.motionState p := by
  rcases obj with ⟨p, rb, ms, wt, up, cs, mass, li⟩
  cases rb <;> cases ms <;> simp [releaseObject, motionStatePtr, or_comm]

theorem nodup_releaseObject (obj : btCollisionObject) : (releaseObject obj).Nodup := by
  rcases obj with ⟨p, rb, ms, wt, up, cs, mass, li⟩
  cases rb <;> cases ms <;> simp [releaseObject]

theorem nodup_flatMap_releaseObject (l : List btCollisionObject)
    (hobj : (l.map (fun o => o.ptr)).Nodup) (hms : (l.filterMap motionStatePtr).Nodup) :
    (l.flatMap releaseObject).Nodup := by
  induction l with
  | nil => simp
  | cons a t ih =>
    rw [List.map_cons, List.nodup_cons] at hobj
    have hms_t : (t.filterMap motionStatePtr).Nodup := by
      cases ha : motionStatePtr a with
      | none => rwa [List.filterMap_cons_none ha] at hms
      | some p =>
        rw [List.filterMap_cons_some ha, List.nodup_cons] at hms
        exact hms.2
    rw [List.flatMap_cons, List.nodup_append]
    refine ⟨nodup_releaseObject a, ih hobj.2 hms_t, ?_⟩
    intro r hra hrt
    rw [List.mem_flatMap] at hrt
    obtain ⟨b, hb, hrb⟩ := hrt
    rw [mem_releaseObject] at hra hrb
    rcases hra with rfl | ⟨p, hpa, rfl⟩
    · rcases hrb with e | ⟨q, -, e⟩
      · simp only [Release.collisionObject.injEq] at e
        exact hobj.1 (e ▸ List.mem_map_of_mem _ hb)
      · cases e
    · rcases hrb with e | ⟨q, hqb, e⟩
      · cases e
      · simp only [Release.motionState.injEq] at e
        subst e
        rw [List.filterMap_cons_some hpa, List.nodup_cons] at hms
        exact hms.1 (List.mem_filterMap.mpr ⟨b, hb, hqb⟩)

/-- C3. Teardown order and exactly-once release: with a non-null world whose
array holds each object once, no motion state shared between bodies and no
shape tracked twice, the destructor runs without a read out of bounds; its
deletes are, in order, for each collision object from the last index down to 0
its motion state (if any) and the object, then every tracked shape in index
order, then world, solver, broadphase, dispatcher and collision configuration;
no delete occurs twice, every object, motion state and tracked shape is deleted
exactly once, and the world is empty when it is deleted. -/
theorem destroyGame_release_order (g : Game) (w : btDiscreteDynamicsWorld)
    (hw : g.dynamicsWorld = some w)
    (hobj : (w.collisionObjects.map (fun o => o.ptr)).Nodup)
    (hms : (w.collisionObjects.filterMap motionStatePtr).Nodup)
    (hshape : (g.collisionShapes.filterMap shapePtr).Nodup) :
    ∃ t, destroyGame g = some t ∧
      t.released =
        w.collisionObjects.reverse.flatMap releaseObject ++
          g.collisionShapes.filterMap releaseShape ++
          [Release.dynamicsWorld, Release.solver, Release.overlappingPairCache,
           Release.dispatcher, Release.collisionConfiguration] ∧
      t.objectsAtWorldDelete = [] ∧
      t.released.Nodup ∧
      (∀ o ∈ w.collisionObjects, t.released.count (Release.collisionObject o.ptr) = 1) ∧
      (∀ o ∈ w.collisionObjects, ∀ p, motionStatePtr o = some p →
        t.released.count (Release.motionState p) = 1) ∧
      (∀ shape, some shape ∈ g.collisionShapes →
        t.released.count (Release.collisionShape shape.ptr) = 1) := by
  have hsh : (g.collisionShapes.filterMap releaseShape).Nodup := by
    have hmap : g.collisionShapes.filterMap releaseShape =
        (g.collisionShapes.filterMap shapePtr).map Release.collisionShape := by
      rw [List.map_filterMap]
      congr 1
      funext slot
      cases slot <;> rfl
    rw [hmap]
    exact hshape.map (fun a b e => by simpa using e)
  have hloop := removeLoop_spec w.collisionObjects.length w.collisionObjects [] rfl hobj
  have hshapes := deleteShapesLoop_spec g.collisionShapes.length 0 g.collisionShapes
    ([] ++ w.collisionObjects.reverse.flatMap releaseObject) (by simp)
  have hdestroy : destroyGame g = some
      { released := w.collisionObjects.reverse.flatMap releaseObject ++
          g.collisionShapes.filterMap releaseShape ++
          [Release.dynamicsWorld, Release.solver, Release.overlappingPairCache,
           Release.dispatcher, Release.collisionConfiguration]
        objectsAtWorldDelete := [] } := by
    simp only [destroyGame, hw, hloop]
    simp only [List.nil_append, List.drop_zero] at hshapes
    simp only [List.nil_append, hshapes]
  have hA : (w.collisionObjects.reverse.flatMap releaseObject).Nodup := by
    apply nodup_flatMap_releaseObject
    · rw [List.map_reverse]
      exact List.nodup_reverse.mpr hobj
    · rw [List.filterMap_reverse]
      exact List.nodup_reverse.mpr hms
  have hmemA : ∀ r, r ∈ w.collisionObjects.reverse.flatMap releaseObject →
      (∃ p, r = Release.collisionObject p) ∨ ∃ p, r = Release.motionState p := by
    intro r hr
    rw [List.mem_flatMap] at hr
    obtain ⟨o, -, hro⟩ := hr
    rw [mem_releaseObject] at hro
    rcases hro with rfl | ⟨p, -, rfl⟩
    · exact Or.inl ⟨_, rfl⟩
    · exact Or.inr ⟨_, rfl⟩
  have hmemB : ∀ r, r ∈ g.collisionShapes.filterMap releaseShape →
      ∃ p, r = Release.collisionShape p := by
    intro r hr
    rw [List.mem_filterMap] at hr
    obtain ⟨slot, -, hslot⟩ := hr
    cases slot with
    | none => simp [releaseShape] at hslot
    | some shape =>
      simp only [releaseShape, Option.map_some', Option.some.injEq] at hslot
      exact ⟨_, hslot.symm⟩
  have hnd : (w.collisionObjects.reverse.flatMap releaseObject ++
      g.collisionShapes.filterMap releaseShape ++
      [Release.dynamicsWorld, Release.solver, Release.overlappingPairCache,
       Release.dispatcher, Release.collisionConfiguration]).Nodup := by
    rw [List.nodup_append, List.nodup_append]
    refine ⟨⟨hA, hsh, ?_⟩, by decide, ?_⟩
    · intro r hrA hrB
      obtain ⟨q, rfl⟩ := hmemB r hrB
      rcases hmemA _ hrA with ⟨p, e⟩ | ⟨p, e⟩ <;> cases e
    · intro r hrAB hrC
      rw [List.mem_append] at hrAB
      rcases hrAB with hrA | hrB
      · rcases hmemA _ hrA with ⟨p, rfl⟩ | ⟨p, rfl⟩ <;> simp at hrC
      · obtain ⟨q, rfl⟩ := hmemB r hrB
        simp at hrC
  refine ⟨_, hdestroy, rfl, rfl, hnd, ?_, ?_, ?_⟩
  · intro o ho
    apply List.count_eq_one_of_mem hnd
    apply List.mem_append_left
    apply List.mem_append_left
    rw [List.mem_flatMap]
    exact ⟨o, List.mem_reverse.mpr ho, (mem_releaseObject o _).mpr (Or.inl rfl)⟩
  · intro o ho p hp
    apply List.count_eq_one_of_mem hnd
    apply List.mem_append_left
    apply List.mem_append_left
    rw [List.mem_flatMap]
    exact ⟨o, List.mem_reverse.mpr ho, (mem_releaseObject o _).mpr (Or.inr ⟨p, hp, rfl⟩)⟩
  · intro shape hshape
    apply List.count_eq_one_of_mem hnd
    apply List.mem_append_left
    apply List.mem_append_right
    rw [List.mem_filterMap]
    exact ⟨some shape, hshape, rfl⟩

/-- Witness for C3: the state `setup` leaves behind is torn down in the stated
order, each delete once. -/
theorem destroyGame_release_order_witness :
    ∃ t, destroyGame demoGame = some t ∧
      t.released =
        demoWorld.collisionObjects.reverse.flatMap releaseObject ++
          demoGame.collisionShapes.filterMap releaseShape ++
          [Release.dynamicsWorld, Release.solver, Release.overlappingPairCache,
           Release.dispatcher, Release.collisionConfiguration] ∧
      t.objectsAtWorldDelete = [] ∧
      t.released.Nodup ∧
      (∀ o ∈ demoWorld.collisionObjects, t.released.count (Release.collisionObject o.ptr) = 1) ∧
      (∀ o ∈ demoWorld.collisionObjects, ∀ p, motionStatePtr o = some p →
        t.released.count (Release.motionState p) = 1) ∧
      (∀ shape, some shape ∈ demoGame.collisionShapes →
        t.released.count (Release.collisionShape shape.ptr) = 1) :=
  destroyGame_release_order demoGame demoWorld demoGame_world (by decide) (by decide) (by decide)

/-- The teardown of the demo scene, written out. -/
theorem destroyGame_demo :
    destroyGame demoGame = some
      { released := [Release.motionState 5, Release.collisionObject 6,
                     Release.motionState 2, Release.collisionObject 3,
                     Release.collisionShape 1, Release.collisionShape 4,
                     Release.dynamicsWorld, Release.solver, Release.overlappingPairCache,
                     Release.dispatcher, Release.collisionConfiguration]
        objectsAtWorldDelete := [] } := by
  rfl

/-- The teardown after `setup` on a fresh `Game`, for any inputs: the same
eleven deletes, with no read out of bounds. -/
theorem destroyGame_after_setup (inp : SceneInputs) :
    destroyGame (sceneAfterSetup inp) = some
      { released := [Release.motionState 5, Release.collisionObject 6,
                     Release.motionState 2, Release.collisionObject 3,
                     Release.collisionShape 1, Release.collisionShape 4,
                     Release.dynamicsWorld, Release.solver, Release.overlappingPairCache,
                     Release.dispatcher, Release.collisionConfiguration]
        objectsAtWorldDelete := [] } := by
  rfl

/-- A fresh `Game` has a null world: its destructor faults. -/
theorem destroyGame_newGame : destroyGame newGame = none := by
  rfl

end GameEngineDev
